import Mathlib

/-!
Verification of the device-state registry and discovery orchestrator of
`home_automation_server.py` (WeMo + LIFX + Tapo Flask server).

The Python program keeps one process-wide dictionary `DEVICES` mapping a
derived device id (`udn`) to a per-device record dictionary, guarded by
`DEVICES_LOCK`.  Discovery threads (`discover_wemo`, `discover_lifx`,
`discover_tapo`) merge records into `DEVICES`; the Flask handlers
(`api_devices`, `api_toggle`, `api_brightness`, `api_hue`,
`api_saturation`) read a snapshot or forward a command and update the
cached record.

This file is a shallow embedding of that code:

* a Python dict is an association list in insertion order (`Registry`);
  `dictGet` / `dictSet` / `dictUpdate` have the Python dict semantics
  (assignment to an existing key keeps its position);
* `time.time()` values are `Nat` ticks;
* results of backend I/O (device scans, state reads, command calls) are
  explicit parameters of the embedded operations, one parameter per
  device call outcome, with `none` / `Except.error` standing for a raised
  exception at that call;
* the lock discipline of each operation is embedded separately as its
  trace of events (`Ev`), in statement order of the source.
-/

/-- JSON-like value appearing in serialized snapshot entries. -/
inductive JVal where
  | str : String → JVal
  | num : Int → JVal
  | null : JVal
deriving DecidableEq, Repr

/-- Python `None`-able int rendered into JSON. -/
def jOptInt : Option Int → JVal
  | some n => .num n
  | none => .null

/-- Python `None`-able string rendered into JSON. -/
def jOptStr : Option String → JVal
  | some s => .str s
  | none => .null

/-- Python `None`-able timestamp rendered into JSON. -/
def jOptNat : Option Nat → JVal
  | some n => .num n
  | none => .null

/--
One entry of `DEVICES`: the per-device record dictionary built by the
three discovery functions (`home_automation_server.py` lines 612-622,
660-670, 780-792).  `device` is the opaque live backend handle (here just
an identifier for it), `type` is the backend tag (`"wemo"`, `"lifx"`,
`"tapo"`), `last_seen` is the `time.time()` of the last write (an
`Option` because the tapo guard reads it with `.get`, line 770).  The
wemo/lifx records carry no hue/saturation keys; a missing key reads as
`None` via `.get`, which this embedding renders as the fields being
`none`.
-/
structure DeviceInfo where
  uuid : String
  device : Nat
  name : String
  model : String
  type : String
  state : Nat
  brightness : Option Int
  hue : Option Int
  saturation : Option Int
  ip : Option String
  last_seen : Option Nat
deriving DecidableEq, Repr

/-- The `DEVICES` dict: association list in insertion order. -/
abbrev Registry : Type := List (String × DeviceInfo)

/-- Python `DEVICES.get(udn)`. -/
def dictGet : Registry → String → Option DeviceInfo
  | [], _ => none
  | (k, v) :: rest, q => if k = q then some v else dictGet rest q

/-- Python `DEVICES[udn] = rec`: overwrite in place or append. -/
def dictSet : Registry → String → DeviceInfo → Registry
  | [], q, r => [(q, r)]
  | (k, v) :: rest, q, r => if k = q then (k, r) :: rest else (k, v) :: dictSet rest q r

/-- Python `DEVICES[udn][field] = value`: mutate the record stored under
an existing key, leaving every other entry and the key order unchanged. -/
def dictUpdate : Registry → String → (DeviceInfo → DeviceInfo) → Registry
  | [], _, _ => []
  | (k, v) :: rest, q, g => if k = q then (k, g v) :: rest else (k, v) :: dictUpdate rest q g

/-- The key sequence of the dict. -/
def keys (st : Registry) : List String := st.map Prod.fst

/-- Well-formedness every reachable `DEVICES` value has: no duplicate keys. -/
def NodupKeys (st : Registry) : Prop := (keys st).Nodup

/--
Python `s.lower()` restricted to how the program uses it (ASCII device
names and type tags), as the list of lowered code points.
-/
def lowerName (s : String) : List Nat :=
  s.data.map (fun c => if 65 ≤ c.toNat ∧ c.toNat ≤ 90 then c.toNat + 32 else c.toNat)

/--
The `type_order` table of `sort_devices` (line 58):
`{"lifx": 0, "wemo": 1, "tapo": 2}` looked up on the lowercased type with
default 99 for unknown types.
-/
def typeRank (t : String) : Nat :=
  let c := lowerName t
  if c = lowerName "lifx" then 0
  else if c = lowerName "wemo" then 1
  else if c = lowerName "tapo" then 2
  else 99

/-- Lexicographic `≤` on code-point lists, Python string comparison. -/
def lexLe : List Nat → List Nat → Bool
  | [], _ => true
  | _ :: _, [] => false
  | a :: as, b :: bs => if a < b then true else if b < a then false else lexLe as bs

/--
The sort key comparison of `sort_devices` (lines 61-67): compare by
`type_order` of the lowercased type, then by the lowercased name.
-/
def devLE (x y : String × DeviceInfo) : Bool :=
  let tx := typeRank x.2.type
  let ty := typeRank y.2.type
  if tx < ty then true
  else if ty < tx then false
  else lexLe (lowerName x.2.name) (lowerName y.2.name)

/-- Stable insertion of one entry into an already ordered prefix. -/
def insertDev (x : String × DeviceInfo) : Registry → Registry
  | [] => [x]
  | y :: ys => if devLE x y then x :: y :: ys else y :: insertDev x ys

/--
`sort_devices` (lines 52-71): rebuild the dict sorted by
`(type_order[type.lower()], name.lower())`.  Python `sorted` is a stable
sort; a stable insertion sort realizes the same ordering.
-/
def sort_devices (st : Registry) : Registry := st.foldr insertDev []

/--
One serialized snapshot entry of `api_devices` (lines 847-872): the
record is copied into a fresh dict field by field, the `device` handle is
left out, and the `hue` / `saturation` keys are present only when both
stored values are not `None`.
-/
def serializeDevice (info : DeviceInfo) : List (String × JVal) :=
  if info.hue.isSome && info.saturation.isSome then
    [("uuid", .str info.uuid), ("name", .str info.name), ("model", .str info.model),
     ("type", .str info.type), ("state", .num info.state),
     ("brightness", jOptInt info.brightness),
     ("hue", jOptInt info.hue), ("saturation", jOptInt info.saturation),
     ("ip", jOptStr info.ip), ("last_seen", jOptNat info.last_seen)]
  else
    [("uuid", .str info.uuid), ("name", .str info.name), ("model", .str info.model),
     ("type", .str info.type), ("state", .num info.state),
     ("brightness", jOptInt info.brightness),
     ("ip", jOptStr info.ip), ("last_seen", jOptNat info.last_seen)]

/-- The `GET api/devices` snapshot (lines 841-873): serialize every
record of `DEVICES` in dict order. -/
def api_devices (st : Registry) : List (List (String × JVal)) :=
  st.map (fun p => serializeDevice p.2)

/-- Replace every stored owner handle (used to state that snapshots carry
no reference to the live backend objects). -/
def setHandles (f : Nat → Nat) (st : Registry) : Registry :=
  st.map (fun p => (p.1, { p.2 with device := f p.2.device }))

/-- Key lookup in a serialized snapshot entry. -/
def jFind : List (String × JVal) → String → Option JVal
  | [], _ => none
  | (k, v) :: rest, q => if k = q then some v else jFind rest q

/-- String read out of a serialized snapshot entry (empty on absence). -/
def jStr (e : List (String × JVal)) (q : String) : String :=
  match jFind e q with
  | some (.str s) => s
  | _ => ""

/-- Order of two serialized snapshot entries: by `type_order` of the
lowercased serialized type, then by the lowercased serialized name. -/
def serLE (a b : List (String × JVal)) : Bool :=
  let ta := typeRank (jStr a "type")
  let tb := typeRank (jStr b "type")
  if ta < tb then true
  else if tb < ta then false
  else lexLe (lowerName (jStr a "name")) (lowerName (jStr b "name"))

/-- Clamp of `api_brightness` (line 995): `b = max(0, min(100, b))`. -/
def clampBrightness (v : Int) : Int := max 0 (min 100 v)

/-- Clamp of `api_hue` (line 1112): `b = max(0, min(360, b))`. -/
def clampHue (v : Int) : Int := max 0 (min 360 v)

/-- Clamp of `api_saturation` (line 1064): `b = max(0, min(100, b))`. -/
def clampSaturation (v : Int) : Int := max 0 (min 100 v)

/-!
Discovery.  Backend I/O outcomes are parameters: for each per-device read
the parameter carries either the value the call returned or the fact that
it raised (in which case the source falls back to the previous cached
value of that field).
-/

/--
One WeMo device as processed by the loop body of `discover_wemo`
(lines 587-622).  `stateRead = none` models the `except` branch of the
state read (line 602), `stateRead = some s` the value stored at lines
598-601 (the source also turns a `None` reading or a missing accessor
into `0`, covered by `some 0`).  Likewise `brightnessRead = none` models
the `except` branch at line 609 and `brightnessRead = some b` a
completed read (with `b = none` when the device reports nothing).
-/
structure WemoObs where
  udn : String
  handle : Nat
  name : String
  model : String
  ip : Option String
  stateRead : Option Nat
  brightnessRead : Option (Option Int)
deriving DecidableEq, Repr

/-- The record `discover_wemo` stores at lines 612-622, with the
exception fallbacks `DEVICES.get(udn, {}).get(...)` of lines 603 and
610 reading the registry as it stands at that loop iteration. -/
def wemoRecord (st : Registry) (now : Nat) (o : WemoObs) : DeviceInfo :=
  let state := match o.stateRead with
    | some s => s
    | none => match dictGet st o.udn with
      | some r => r.state
      | none => 0
  let brightness := match o.brightnessRead with
    | some b => b
    | none => match dictGet st o.udn with
      | some r => r.brightness
      | none => none
  { uuid := o.udn, device := o.handle, name := o.name, model := o.model,
    type := "wemo", state := state, brightness := brightness,
    hue := none, saturation := none, ip := o.ip, last_seen := some now }

/-- The merge loop of `discover_wemo` (lines 586-623): every found device
is written unconditionally, then the dict is re-sorted (line 623). -/
def wemo_merge (st : Registry) (found : List WemoObs) (now : Nat) : Registry :=
  sort_devices (found.foldl (fun acc o => dictSet acc o.udn (wemoRecord acc now o)) st)

/-- `discover_wemo` (lines 575-623): a scan that raises entirely is
replaced by the empty list (lines 579-583), then the merge loop runs. -/
def discover_wemo (st : Registry) (scan : Option (List WemoObs)) (now : Nat) : Registry :=
  wemo_merge st (match scan with | some fs => fs | none => []) now

/--
One LIFX light as processed by the loop body of `discover_lifx`
(lines 641-673).  `failed = true` models the per-device `except` at
line 671 (the light is skipped, processing continues).  `powerRead =
none` / `colorRead = none` model the inner `except` fallbacks at lines
650 and 656.
-/
structure LifxObs where
  udn : String
  handle : Nat
  label : String
  ip : Option String
  powerRead : Option Nat
  colorRead : Option Int
  failed : Bool
deriving DecidableEq, Repr

/-- The record `discover_lifx` stores at lines 660-670.  The power value
is collapsed to `1` when positive (line 648); read failures fall back to
the cached `state` / `brightness` of lines 651 and 657. -/
def lifxRecord (st : Registry) (now : Nat) (o : LifxObs) : DeviceInfo :=
  let state := match o.powerRead with
    | some p => if 0 < p then 1 else 0
    | none => match dictGet st o.udn with
      | some r => r.state
      | none => 0
  let brightness := match o.colorRead with
    | some b => some b
    | none => match dictGet st o.udn with
      | some r => r.brightness
      | none => none
  { uuid := o.udn, device := o.handle, name := o.label, model := "LIFX",
    type := "lifx", state := state, brightness := brightness,
    hue := none, saturation := none, ip := o.ip, last_seen := some now }

/-- The merge loop of `discover_lifx` (lines 639-675): each processed
light is written unconditionally, a failed light is skipped, then the
dict is re-sorted (line 675). -/
def lifx_merge (st : Registry) (lights : List LifxObs) (now : Nat) : Registry :=
  sort_devices (lights.foldl
    (fun acc o => if o.failed then acc else dictSet acc o.udn (lifxRecord acc now o)) st)

/-- `discover_lifx` (lines 626-675): a scan that raises entirely falls
back to the cached light list `LIFX_CACHE` (line 636), which then also
becomes the new cache (line 640).  Returns the new registry and the new
cache. -/
def discover_lifx (st : Registry) (scan : Option (List LifxObs)) (cache : List LifxObs)
    (now : Nat) : Registry × List LifxObs :=
  let lights := match scan with | some ls => ls | none => cache
  (lifx_merge st lights now, lights)

/-- One Tapo device from `TAPO_CACHE` as read at lines 780-792. -/
structure TapoObs where
  mac : String
  handle : Nat
  nickname : String
  model : String
  ip : Option String
  device_on : Bool
  brightness : Option Int
  hue : Option Int
  saturation : Option Int
deriving DecidableEq, Repr

/-- The record `discover_tapo` stores at lines 780-792. -/
def tapoRecord (now : Nat) (o : TapoObs) : DeviceInfo :=
  { uuid := "tapo-" ++ o.mac, device := o.handle, name := o.nickname,
    model := o.model, type := "tapo",
    state := if o.device_on then 1 else 0,
    brightness := o.brightness, hue := o.hue, saturation := o.saturation,
    ip := o.ip, last_seen := some now }

/--
The per-device merge of `discover_tapo` (lines 763-795): under the lock,
read the existing record and its `last_seen`, compute
`should_update = existing is None or last_seen is None or
discovery_start_time > last_seen` (lines 772-776), write the new record
only if it holds (lines 779-794), then re-sort (line 795, executed on
both branches).  `epoch` is `discovery_start_time`, the tick captured at
round start (line 817).
-/
def tapoMergeOne (epoch now : Nat) (st : Registry) (o : TapoObs) : Registry :=
  let udn := "tapo-" ++ o.mac
  let should_update : Bool :=
    match dictGet st udn with
    | none => true
    | some existing =>
      match existing.last_seen with
      | none => true
      | some ls => decide (ls < epoch)
  sort_devices (if should_update then dictSet st udn (tapoRecord now o) else st)

/-- The merge phase of `discover_tapo` (lines 760-803) over the whole
cache of discovered devices. -/
def discover_tapo (epoch now : Nat) (st : Registry) (cache : List TapoObs) : Registry :=
  cache.foldl (fun acc o => tapoMergeOne epoch now acc o) st

/-!
Command handlers.  One `Except` parameter per handler carries the outcome
of the backend adapter interaction of the selected branch: `Except.error
e` models any exception raised by the device calls (caught by the
handler, which then answers with a JSON error and writes nothing), and a
success carries whatever value the source assigns into the cache, where
that value comes from a device read.
-/

/-- Flask response as far as the embedding observes it. -/
structure HttpResp where
  status : Nat
  ok : Bool
  error : Option String
deriving DecidableEq, Repr

/-- Result of a command handler: the response, the registry afterwards,
and, for the hue/saturation handlers, the `(hue, saturation)` pair passed
to `set_hue_saturation` when that call was issued. -/
structure CmdOut where
  resp : HttpResp
  reg : Registry
  issued : Option (Option Int × Option Int) := none
deriving DecidableEq, Repr

/-- Success response `jsonify({'ok': True})`. -/
def ok200 : HttpResp := { status := 200, ok := true, error := none }

/-- `abort(404)`. -/
def err404 : HttpResp := { status := 404, ok := false, error := none }

/-- `jsonify({'error': e}), 500`. -/
def err500 (e : String) : HttpResp := { status := 500, ok := false, error := some e }

/-- `jsonify({'error': e}), 400`. -/
def err400 (e : String) : HttpResp := { status := 400, ok := false, error := some e }

/--
`api_toggle` (lines 876-981).  Lookup of the record under the lock
(lines 878-881), then one branch per type.  For wemo and lifx the device
is toggled and the cached `state` is re-read from the device (lines
911-913 and 940); `out = Except.ok s` carries that re-read value, and
`Except.error e` any exception of the branch, which reaches the
`except` of line 975 before any cache write.  For tapo the new state is
computed from the cached record (line 953) and written after the
adapter call succeeds (lines 963-966); exceptions are caught at line 970.
An unknown type raises `RuntimeError` (line 974), caught at line 975.
-/
def api_toggle (st : Registry) (udn : String) (out : Except String Nat) (now : Nat) : CmdOut :=
  match dictGet st udn with
  | none => { resp := err404, reg := st }
  | some info =>
    if info.type = "wemo" then
      match out with
      | .error e => { resp := err500 e, reg := st }
      | .ok s =>
        { resp := ok200,
          reg := dictUpdate st udn (fun r => { r with state := s, last_seen := some now }) }
    else if info.type = "lifx" then
      match out with
      | .error e => { resp := err500 e, reg := st }
      | .ok s =>
        { resp := ok200,
          reg := dictUpdate st udn (fun r => { r with state := s, last_seen := some now }) }
    else if info.type = "tapo" then
      match out with
      | .error e => { resp := err500 ("Tapo toggle failed: " ++ e), reg := st }
      | .ok _ =>
        let newState := if info.state = 0 then 1 else 0
        { resp := ok200,
          reg := dictUpdate st udn
            (fun r => { r with state := newState, last_seen := some now }) }
    else
      { resp := err500 "Unknown device type", reg := st }

/--
`api_brightness` (lines 984-1050).  `raw = none` models a missing or
unparsable body value (lines 987-992); the value is clamped at line 995
before the lookup; `supportsSet` is the `hasattr(dev, 'set_brightness')`
probe of line 1007.  On every branch the clamped value is written into
the cache only after the device call succeeded; any exception answers
with a JSON error first (lines 1010, 1028-1029, 1040-1041, 1045-1046).
-/
def api_brightness (st : Registry) (udn : String) (raw : Option Int) (supportsSet : Bool)
    (out : Except String Unit) (now : Nat) : CmdOut :=
  match raw with
  | none => { resp := err400 "invalid brightness value", reg := st }
  | some v =>
    let b := clampBrightness v
    match dictGet st udn with
    | none => { resp := err404, reg := st }
    | some info =>
      if info.type = "wemo" then
        if supportsSet then
          match out with
          | .error e => { resp := err500 e, reg := st }
          | .ok _ =>
            { resp := ok200,
              reg := dictUpdate st udn
                (fun r => { r with brightness := some b, last_seen := some now }) }
        else { resp := err400 "device does not support brightness", reg := st }
      else if info.type = "lifx" then
        match out with
        | .error e => { resp := err500 e, reg := st }
        | .ok _ =>
          { resp := ok200,
            reg := dictUpdate st udn
              (fun r => { r with brightness := some b, last_seen := some now }) }
      else if info.type = "tapo" then
        match out with
        | .error e => { resp := err500 ("Tapo brightness failed: " ++ e), reg := st }
        | .ok _ =>
          { resp := ok200,
            reg := dictUpdate st udn
              (fun r => { r with brightness := some b, last_seen := some now }) }
      else { resp := err400 "unknown device type", reg := st }

/--
`api_hue` (lines 1101-1146).  The value is clamped to `[0, 360]` at
line 1112; for a tapo device the handler reads the current cached
saturation (line 1130) and issues `set_hue_saturation(b, cur_saturation)`
(line 1131); on success only then the cached `hue` and `last_seen` are
written (lines 1133-1135); an exception answers 500 (line 1136) with the
cache untouched.
-/
def api_hue (st : Registry) (udn : String) (raw : Option Int)
    (out : Except String Unit) (now : Nat) : CmdOut :=
  match raw with
  | none => { resp := err400 "invalid hue value", reg := st }
  | some v =>
    let b := clampHue v
    match dictGet st udn with
    | none => { resp := err404, reg := st }
    | some info =>
      if info.type = "tapo" then
        let cur_saturation := info.saturation
        match out with
        | .error e =>
          { resp := err500 ("Tapo hue failed: " ++ e), reg := st,
            issued := some (some b, cur_saturation) }
        | .ok _ =>
          { resp := ok200,
            reg := dictUpdate st udn
              (fun r => { r with hue := some b, last_seen := some now }),
            issued := some (some b, cur_saturation) }
      else { resp := err400 "unknown device type", reg := st }

/--
`api_saturation` (lines 1053-1098).  The value is clamped to `[0, 100]`
at line 1064; for a tapo device the handler reads the current cached hue
(line 1082) and issues `set_hue_saturation(cur_hue, b)` (line 1083); on
success only then the cached `saturation` and `last_seen` are written
(lines 1085-1087); an exception answers 500 (line 1088) with the cache
untouched.
-/
def api_saturation (st : Registry) (udn : String) (raw : Option Int)
    (out : Except String Unit) (now : Nat) : CmdOut :=
  match raw with
  | none => { resp := err400 "invalid hue value", reg := st }
  | some v =>
    let b := clampSaturation v
    match dictGet st udn with
    | none => { resp := err404, reg := st }
    | some info =>
      if info.type = "tapo" then
        let cur_hue := info.hue
        match out with
        | .error e =>
          { resp := err500 ("Tapo saturation failed: " ++ e), reg := st,
            issued := some (cur_hue, some b) }
        | .ok _ =>
          { resp := ok200,
            reg := dictUpdate st udn
              (fun r => { r with saturation := some b, last_seen := some now }),
            issued := some (cur_hue, some b) }
      else { resp := err400 "unknown device type", reg := st }

/-!
Registry operations as a transition system: every mutation of `DEVICES`
the program performs is one of these, so properties quantified over
`List RegOp` hold of every reachable registry value (the dict is created
empty at line 41).
-/

/-- One mutating operation on `DEVICES`. -/
inductive RegOp where
  | opWemo (scan : Option (List WemoObs)) (now : Nat)
  | opLifx (lights : List LifxObs) (now : Nat)
  | opTapo (cache : List TapoObs) (epoch now : Nat)
  | opToggle (udn : String) (out : Except String Nat) (now : Nat)
  | opBrightness (udn : String) (raw : Option Int) (sup : Bool)
      (out : Except String Unit) (now : Nat)
  | opHue (udn : String) (raw : Option Int) (out : Except String Unit) (now : Nat)
  | opSaturation (udn : String) (raw : Option Int) (out : Except String Unit) (now : Nat)

/-- Effect of one operation on the registry. -/
def applyOp (st : Registry) : RegOp → Registry
  | .opWemo scan now => discover_wemo st scan now
  | .opLifx lights now => (lifx_merge st lights now)
  | .opTapo cache epoch now => discover_tapo epoch now st cache
  | .opToggle udn out now => (api_toggle st udn out now).reg
  | .opBrightness udn raw sup out now => (api_brightness st udn raw sup out now).reg
  | .opHue udn raw out now => (api_hue st udn raw out now).reg
  | .opSaturation udn raw out now => (api_saturation st udn raw out now).reg

/-- Registry after a sequence of operations, starting from the empty
dict of line 41. -/
def applyOps (ops : List RegOp) : Registry := ops.foldl applyOp []

/-!
Lock discipline.  Each operation of the program is abstracted to the
sequence of lock and suspension events it performs, in statement order of
the source.  `netCall` is a call into a backend device library (network
I/O), `sleep` is `time.sleep` while relevant (inside or around the
critical section).
-/

/-- One lock or suspension event. -/
inductive Ev where
  | acquire
  | release
  | netCall
  | sleep
deriving DecidableEq, Repr

/-- Scan a trace with the lock-held flag; `false` as soon as a backend
call or a sleep happens while the lock is held. -/
def noSuspendInLock : List Ev → Bool → Bool
  | [], _ => true
  | Ev.acquire :: rest, _ => noSuspendInLock rest true
  | Ev.release :: rest, _ => noSuspendInLock rest false
  | Ev.netCall :: rest, held => if held then false else noSuspendInLock rest held
  | Ev.sleep :: rest, held => if held then false else noSuspendInLock rest held

/-- A trace never suspends nor performs backend I/O inside the critical
section. -/
def lockSafe (t : List Ev) : Bool := noSuspendInLock t false

/-- Per-device reads of the `discover_wemo` loop body: `dev.get_state()`
(line 598) and `dev.get_brightness()` (line 607), one pair per found
device, all inside `with DEVICES_LOCK` (line 586). -/
def wemoReadTrace : Nat → List Ev
  | 0 => []
  | n + 1 => Ev.netCall :: Ev.netCall :: wemoReadTrace n

/-- `discover_wemo` (lines 575-623) on `n` found devices: the scan
(line 580) outside the lock, then the lock is taken (line 586) and the
per-device reads run inside it. -/
def discover_wemo_trace (n : Nat) : List Ev :=
  Ev.netCall :: Ev.acquire :: (wemoReadTrace n ++ [Ev.release])

/-- Per-light reads of the `discover_lifx` loop body: `l.get_power()`
(line 648), `l.get_color()` (line 654) and `l.get_label()` (lines 659,
663), all inside `with DEVICES_LOCK` (line 639). -/
def lifxReadTrace : Nat → List Ev
  | 0 => []
  | n + 1 => Ev.netCall :: Ev.netCall :: Ev.netCall :: lifxReadTrace n

/-- `discover_lifx` (lines 626-675) on `n` lights: the scan (line 633)
outside the lock, then the lock is taken (line 639) and the per-light
reads run inside it. -/
def discover_lifx_trace (n : Nat) : List Ev :=
  Ev.netCall :: Ev.acquire :: (lifxReadTrace n ++ [Ev.release])

/-- The merge loop of `discover_tapo` on `n` cached devices: each
iteration takes and drops the lock (line 764) around pure dict work. -/
def tapoLoopTrace : Nat → List Ev
  | 0 => []
  | n + 1 => Ev.acquire :: Ev.release :: tapoLoopTrace n

/-- `discover_tapo` (lines 678-805) on `n` cached devices: the network
discovery (lines 689-757) outside the lock, then the merge loop. -/
def discover_tapo_trace (n : Nat) : List Ev :=
  Ev.netCall :: tapoLoopTrace n

/-- `api_toggle` on a wemo device: lookup under the lock (line 878), the
toggle call (lines 890-907) outside it, then the optimistic update
(line 910) re-reads the device state (lines 911-912) inside the lock,
and the final `time.sleep(0.3)` (line 980) outside it. -/
def api_toggle_wemo_trace : List Ev :=
  [Ev.acquire, Ev.release, Ev.netCall, Ev.acquire, Ev.netCall, Ev.release, Ev.sleep]

/-- `api_toggle` on a lifx device: lookup under the lock (line 878), the
power read and toggle (lines 920-924) outside it, then the optimistic
update (line 934) performs `time.sleep(0.5)` (line 938) and two
`dev.get_power()` reads (lines 939-940) inside the lock, and the final
`time.sleep(0.3)` (line 980) outside it. -/
def api_toggle_lifx_trace : List Ev :=
  [Ev.acquire, Ev.release, Ev.netCall, Ev.netCall, Ev.acquire, Ev.sleep,
   Ev.netCall, Ev.netCall, Ev.release, Ev.sleep]

/-- `api_toggle` on a tapo device: lookup under the lock (line 878), the
on/off call (lines 958-960) outside it, the cache write under the lock
(lines 963-966), the final `time.sleep(0.3)` (line 980) outside it. -/
def api_toggle_tapo_trace : List Ev :=
  [Ev.acquire, Ev.release, Ev.netCall, Ev.acquire, Ev.release, Ev.sleep]

/-- `api_brightness` (any backend): lookup under the lock (line 997),
the set call (lines 1008, 1018-1024, 1035) outside it, the cache write
under the lock (lines 1011-1013, 1025-1027, 1037-1039), the final
`time.sleep(0.2)` (line 1049) outside it. -/
def api_brightness_trace : List Ev :=
  [Ev.acquire, Ev.release, Ev.netCall, Ev.acquire, Ev.release, Ev.sleep]

/-- `api_hue` on a tapo device: lookup under the lock (line 1114), the
`set_hue_saturation` call (line 1131) outside it, the cache write under
the lock (lines 1133-1135), the final `time.sleep(0.2)` (line 1145)
outside it. -/
def api_hue_trace : List Ev :=
  [Ev.acquire, Ev.release, Ev.netCall, Ev.acquire, Ev.release, Ev.sleep]

/-- `api_saturation` on a tapo device: lookup under the lock
(line 1066), the `set_hue_saturation` call (line 1083) outside it, the
cache write under the lock (lines 1085-1087), the final
`time.sleep(0.2)` (line 1097) outside it. -/
def api_saturation_trace : List Ev :=
  [Ev.acquire, Ev.release, Ev.netCall, Ev.acquire, Ev.release, Ev.sleep]

/-! Dictionary lemmas. -/

theorem dictGet_dictUpdate_self (st : Registry) (q : String) (g : DeviceInfo → DeviceInfo) :
    dictGet (dictUpdate st q g) q = (dictGet st q).map g := by
  induction st with
  | nil => rfl
  | cons p rest ih =>
    obtain ⟨k, v⟩ := p
    by_cases h : k = q
    · simp [dictUpdate, dictGet, h]
    · simp [dictUpdate, dictGet, h, ih]

theorem keys_dictUpdate (st : Registry) (q : String) (g : DeviceInfo → DeviceInfo) :
    keys (dictUpdate st q g) = keys st := by
  induction st with
  | nil => rfl
  | cons p rest ih =>
    obtain ⟨k, v⟩ := p
    by_cases h : k = q
    · simp [dictUpdate, keys, h]
    · simp only [dictUpdate, if_neg h]
      simp only [keys, List.map_cons] at ih ⊢
      rw [ih]

theorem mem_keys_dictSet_iff (st : Registry) (q : String) (r : DeviceInfo) (k : String) :
    k ∈ keys (dictSet st q r) ↔ k ∈ keys st ∨ k = q := by
  induction st with
  | nil => simp [dictSet, keys]
  | cons p rest ih =>
    obtain ⟨k', v⟩ := p
    by_cases h : k' = q
    · subst h
      simp [dictSet, keys]
      tauto
    · simp only [dictSet, if_neg h]
      simp only [keys, List.map_cons, List.mem_cons] at ih ⊢
      tauto

theorem nodupKeys_dictSet (st : Registry) (q : String) (r : DeviceInfo)
    (h : NodupKeys st) : NodupKeys (dictSet st q r) := by
  induction st with
  | nil => simp [dictSet, NodupKeys, keys]
  | cons p rest ih =>
    obtain ⟨k', v⟩ := p
    unfold NodupKeys at h ⊢
    simp only [keys, List.map_cons, List.nodup_cons] at h
    by_cases hk : k' = q
    · simp only [dictSet, if_pos hk, keys, List.map_cons, List.nodup_cons]
      exact h
    · simp only [dictSet, if_neg hk, keys, List.map_cons, List.nodup_cons]
      refine ⟨?_, ih h.2⟩
      intro hmem
      have := (mem_keys_dictSet_iff rest q r k').mp hmem
      rcases this with h' | h'
      · exact h.1 h'
      · exact hk h'

theorem dictGet_none_iff (st : Registry) (k : String) :
    dictGet st k = none ↔ k ∉ keys st := by
  induction st with
  | nil => simp [dictGet, keys]
  | cons p rest ih =>
    obtain ⟨k', v⟩ := p
    by_cases h : k' = k
    · subst h; simp [dictGet, keys]
    · simp only [dictGet, if_neg h, keys, List.map_cons, List.mem_cons]
      simp only [keys] at ih
      rw [ih]
      constructor
      · intro hn hc
        rcases hc with hc | hc
        · exact h hc.symm
        · exact hn hc
      · intro hn hc
        exact hn (Or.inr hc)

theorem mem_of_dictGet_eq_some {st : Registry} {k : String} {v : DeviceInfo}
    (h : dictGet st k = some v) : (k, v) ∈ st := by
  induction st with
  | nil => simp [dictGet] at h
  | cons p rest ih =>
    obtain ⟨k', v'⟩ := p
    by_cases hk : k' = k
    · subst hk
      simp [dictGet] at h
      subst h
      exact List.mem_cons_self _ _
    · simp only [dictGet, if_neg hk] at h
      exact List.mem_cons_of_mem _ (ih h)

theorem dictGet_eq_some_of_mem :
    ∀ (st : Registry), NodupKeys st → ∀ (k : String) (v : DeviceInfo),
      (k, v) ∈ st → dictGet st k = some v := by
  intro st
  induction st with
  | nil => intro _ k v h; simp at h
  | cons p rest ih =>
    intro hnd k v h
    obtain ⟨k', v'⟩ := p
    unfold NodupKeys at hnd
    simp only [keys, List.map_cons, List.nodup_cons] at hnd
    rcases List.mem_cons.mp h with h | h
    · rw [Prod.mk.injEq] at h
      obtain ⟨h1, h2⟩ := h
      subst h1; subst h2
      simp [dictGet]
    · by_cases hk : k' = k
      · subst hk
        exfalso
        exact hnd.1 (List.mem_map_of_mem Prod.fst h)
      · simp only [dictGet, if_neg hk]
        exact ih hnd.2 k v h

/-! Permutation and ordering lemmas for `sort_devices`. -/

theorem insertDev_perm (x : String × DeviceInfo) (l : Registry) :
    List.Perm (insertDev x l) (x :: l) := by
  induction l with
  | nil => exact List.Perm.refl _
  | cons y ys ih =>
    unfold insertDev
    by_cases h : devLE x y = true
    · rw [if_pos h]
    · rw [if_neg h]
      exact List.Perm.trans (List.Perm.cons y ih) (List.Perm.swap x y ys)

theorem sort_devices_perm (l : Registry) : List.Perm (sort_devices l) l := by
  induction l with
  | nil => exact List.Perm.refl _
  | cons x xs ih =>
    have hx : sort_devices (x :: xs) = insertDev x (sort_devices xs) := rfl
    rw [hx]
    exact List.Perm.trans (insertDev_perm x (sort_devices xs)) (List.Perm.cons x ih)

theorem keys_sort_perm (l : Registry) : List.Perm (keys (sort_devices l)) (keys l) :=
  (sort_devices_perm l).map Prod.fst

theorem nodupKeys_sort {l : Registry} (h : NodupKeys l) : NodupKeys (sort_devices l) :=
  ((keys_sort_perm l).symm).nodup h

theorem dictGet_sort_devices {l : Registry} (hnd : NodupKeys l) (k : String) :
    dictGet (sort_devices l) k = dictGet l k := by
  cases h : dictGet l k with
  | none =>
    rw [dictGet_none_iff] at h ⊢
    intro hc
    exact h ((keys_sort_perm l).mem_iff.mp hc)
  | some v =>
    have hm : (k, v) ∈ l := mem_of_dictGet_eq_some h
    have hm2 : (k, v) ∈ sort_devices l := (sort_devices_perm l).symm.mem_iff.mp hm
    exact dictGet_eq_some_of_mem _ (nodupKeys_sort hnd) k v hm2

/-- The ordering relation of the registry, as a proposition. -/
def DevR (x y : String × DeviceInfo) : Prop := devLE x y = true

theorem lexLe_total (a b : List Nat) : lexLe a b = true ∨ lexLe b a = true := by
  induction a generalizing b with
  | nil => left; rfl
  | cons x xs ih =>
    cases b with
    | nil => right; rfl
    | cons y ys =>
      rcases Nat.lt_trichotomy x y with h | h | h
      · left; simp [lexLe, h]
      · subst h
        simp only [lexLe, Nat.lt_irrefl, if_false]
        exact ih ys
      · right; simp [lexLe, h, Nat.lt_asymm h]

theorem lexLe_trans : ∀ (a b c : List Nat),
    lexLe a b = true → lexLe b c = true → lexLe a c = true := by
  intro a
  induction a with
  | nil => intro b c _ _; rfl
  | cons x xs ih =>
    intro b c hab hbc
    cases b with
    | nil => simp [lexLe] at hab
    | cons y ys =>
      cases c with
      | nil => simp [lexLe] at hbc
      | cons z zs =>
        simp only [lexLe] at hab hbc ⊢
        by_cases hxy : x < y
        · by_cases hyz : y < z
          · simp [Nat.lt_trans hxy hyz]
          · by_cases hzy : z < y
            · simp [hyz, hzy] at hbc
            · have hyzeq : y = z := by omega
              subst hyzeq
              simp [hxy]
        · by_cases hyx : y < x
          · simp [hxy, hyx] at hab
          · have hxyeq : x = y := by omega
            subst hxyeq
            simp only [Nat.lt_irrefl, if_false] at hab
            by_cases hxz : x < z
            · simp [hxz]
            · by_cases hzx : z < x
              · simp [hxz, hzx] at hbc
              · have hxzeq : x = z := by omega
                subst hxzeq
                simp only [Nat.lt_irrefl, if_false] at hbc ⊢
                exact ih ys zs hab hbc

theorem devLE_total (x y : String × DeviceInfo) : devLE x y = true ∨ devLE y x = true := by
  unfold devLE
  rcases Nat.lt_trichotomy (typeRank x.2.type) (typeRank y.2.type) with h | h | h
  · left; simp [h]
  · rw [h]
    simp only [Nat.lt_irrefl, if_false]
    exact lexLe_total _ _
  · right; simp [h, Nat.lt_asymm h]

theorem devLE_trans (x y z : String × DeviceInfo)
    (hxy : devLE x y = true) (hyz : devLE y z = true) : devLE x z = true := by
  unfold devLE at hxy hyz ⊢
  by_cases h1 : typeRank x.2.type < typeRank y.2.type
  · by_cases h2 : typeRank y.2.type < typeRank z.2.type
    · simp [Nat.lt_trans h1 h2]
    · by_cases h3 : typeRank z.2.type < typeRank y.2.type
      · simp [h2, h3] at hyz
      · have : typeRank y.2.type = typeRank z.2.type := by omega
        simp [this ▸ h1]
  · by_cases h1' : typeRank y.2.type < typeRank x.2.type
    · simp [h1, h1'] at hxy
    · have hxyeq : typeRank x.2.type = typeRank y.2.type := by omega
      by_cases h2 : typeRank y.2.type < typeRank z.2.type
      · simp [hxyeq ▸ h2]
      · by_cases h3 : typeRank z.2.type < typeRank y.2.type
        · simp [h2, h3] at hyz
        · have hyzeq : typeRank y.2.type = typeRank z.2.type := by omega
          simp only [hxyeq, hyzeq, Nat.lt_irrefl, if_false] at hxy hyz ⊢
          exact lexLe_trans _ _ _ hxy hyz

theorem mem_insertDev {x z : String × DeviceInfo} :
    ∀ {l : Registry}, z ∈ insertDev x l → z = x ∨ z ∈ l := by
  intro l
  induction l with
  | nil =>
    intro h
    simp [insertDev] at h
    left; exact h
  | cons y ys ih =>
    intro h
    unfold insertDev at h
    by_cases hc : devLE x y = true
    · rw [if_pos hc] at h
      rcases List.mem_cons.mp h with h | h
      · left; exact h
      · right; exact h
    · rw [if_neg hc] at h
      rcases List.mem_cons.mp h with h | h
      · right; exact h ▸ List.mem_cons_self y ys
      · rcases ih h with h | h
        · left; exact h
        · right; exact List.mem_cons_of_mem _ h

theorem pairwise_insertDev (x : String × DeviceInfo) {l : Registry}
    (h : l.Pairwise DevR) : (insertDev x l).Pairwise DevR := by
  induction l with
  | nil => simp [insertDev, List.pairwise_singleton]
  | cons y ys ih =>
    rw [List.pairwise_cons] at h
    obtain ⟨hy, hys⟩ := h
    unfold insertDev
    by_cases hc : devLE x y = true
    · rw [if_pos hc, List.pairwise_cons]
      refine ⟨?_, ?_⟩
      · intro z hz
        rcases List.mem_cons.mp hz with rfl | hz
        · exact hc
        · exact devLE_trans x y z hc (hy z hz)
      · rw [List.pairwise_cons]
        exact ⟨hy, hys⟩
    · rw [if_neg hc, List.pairwise_cons]
      refine ⟨?_, ih hys⟩
      intro z hz
      rcases mem_insertDev hz with rfl | hz
      · rcases devLE_total y z with h | h
        · exact h
        · exact absurd h hc
      · exact hy z hz

theorem pairwise_sort_devices (l : Registry) : (sort_devices l).Pairwise DevR := by
  induction l with
  | nil => exact List.Pairwise.nil
  | cons x xs ih => exact pairwise_insertDev x ih

theorem devLE_left_congr (a a' : String × DeviceInfo)
    (ht : a'.2.type = a.2.type) (hn : a'.2.name = a.2.name)
    (y : String × DeviceInfo) : devLE a' y = devLE a y := by
  unfold devLE
  rw [ht, hn]

theorem devLE_right_congr (b b' : String × DeviceInfo)
    (ht : b'.2.type = b.2.type) (hn : b'.2.name = b.2.name)
    (x : String × DeviceInfo) : devLE x b' = devLE x b := by
  unfold devLE
  rw [ht, hn]

theorem mem_dictUpdate {q : String} {g : DeviceInfo → DeviceInfo}
    {z : String × DeviceInfo} :
    ∀ {l : Registry}, z ∈ dictUpdate l q g →
      z ∈ l ∨ ∃ w, w ∈ l ∧ z = (w.1, g w.2) := by
  intro l
  induction l with
  | nil => intro h; simp [dictUpdate] at h
  | cons p rest ih =>
    intro h
    obtain ⟨k, v⟩ := p
    unfold dictUpdate at h
    by_cases hk : k = q
    · rw [if_pos hk] at h
      rcases List.mem_cons.mp h with rfl | h
      · right; exact ⟨(k, v), List.mem_cons_self _ _, rfl⟩
      · left; exact List.mem_cons_of_mem _ h
    · rw [if_neg hk] at h
      rcases List.mem_cons.mp h with rfl | h
      · left; exact List.mem_cons_self _ _
      · rcases ih h with h | ⟨w, hw, hz⟩
        · left; exact List.mem_cons_of_mem _ h
        · right; exact ⟨w, List.mem_cons_of_mem _ hw, hz⟩

theorem pairwise_dictUpdate (q : String) (g : DeviceInfo → DeviceInfo)
    (ht : ∀ r, (g r).type = r.type) (hn : ∀ r, (g r).name = r.name) :
    ∀ {l : Registry}, l.Pairwise DevR → (dictUpdate l q g).Pairwise DevR := by
  intro l
  induction l with
  | nil => intro _; simp [dictUpdate]
  | cons p rest ih =>
    intro h
    obtain ⟨k, v⟩ := p
    rw [List.pairwise_cons] at h
    obtain ⟨hhead, hrest⟩ := h
    unfold dictUpdate
    by_cases hk : k = q
    · rw [if_pos hk, List.pairwise_cons]
      refine ⟨?_, hrest⟩
      intro z hz
      have hz' := hhead z hz
      unfold DevR at hz' ⊢
      rw [devLE_left_congr (k, v) (k, g v) (ht v) (hn v) z]
      exact hz'
    · rw [if_neg hk, List.pairwise_cons]
      refine ⟨?_, ih hrest⟩
      intro z hz
      rcases mem_dictUpdate hz with hz | ⟨w, hw, hzw⟩
      · exact hhead z hz
      · have hw' := hhead w hw
        unfold DevR at hw' ⊢
        subst hzw
        rw [devLE_right_congr w (w.1, g w.2) (ht w.2) (hn w.2) (k, v)]
        exact hw'

/-! Every reachable registry is sorted: each mutating operation either
ends in `sort_devices` or only rewrites value fields of existing keys. -/

/-- The registry ordering invariant. -/
def SortedReg (st : Registry) : Prop := st.Pairwise DevR

theorem sortedReg_sort_devices (l : Registry) : SortedReg (sort_devices l) :=
  pairwise_sort_devices l

theorem sortedReg_wemo_merge (st : Registry) (found : List WemoObs) (now : Nat) :
    SortedReg (wemo_merge st found now) :=
  pairwise_sort_devices _

theorem sortedReg_discover_wemo (st : Registry) (scan : Option (List WemoObs)) (now : Nat) :
    SortedReg (discover_wemo st scan now) :=
  pairwise_sort_devices _

theorem sortedReg_lifx_merge (st : Registry) (lights : List LifxObs) (now : Nat) :
    SortedReg (lifx_merge st lights now) :=
  pairwise_sort_devices _

theorem sortedReg_tapoMergeOne (epoch now : Nat) (st : Registry) (o : TapoObs) :
    SortedReg (tapoMergeOne epoch now st o) :=
  pairwise_sort_devices _

theorem sortedReg_discover_tapo (epoch now : Nat) (cache : List TapoObs) :
    ∀ (st : Registry), SortedReg st → SortedReg (discover_tapo epoch now st cache) := by
  induction cache with
  | nil => intro st h; exact h
  | cons o os ih =>
    intro st h
    exact ih (tapoMergeOne epoch now st o) (sortedReg_tapoMergeOne epoch now st o)

theorem sortedReg_api_toggle (st : Registry) (udn : String) (out : Except String Nat)
    (now : Nat) (h : SortedReg st) : SortedReg (api_toggle st udn out now).reg := by
  cases hget : dictGet st udn with
  | none => simp only [api_toggle, hget]; exact h
  | some info =>
    simp only [api_toggle, hget]
    by_cases h1 : info.type = "wemo"
    · rw [if_pos h1]
      cases out with
      | error e => exact h
      | ok s =>
        exact pairwise_dictUpdate udn
          (fun r => { r with state := s, last_seen := some now })
          (fun r => rfl) (fun r => rfl) h
    · rw [if_neg h1]
      by_cases h2 : info.type = "lifx"
      · rw [if_pos h2]
        cases out with
        | error e => exact h
        | ok s =>
          exact pairwise_dictUpdate udn
            (fun r => { r with state := s, last_seen := some now })
            (fun r => rfl) (fun r => rfl) h
      · rw [if_neg h2]
        by_cases h3 : info.type = "tapo"
        · rw [if_pos h3]
          cases out with
          | error e => exact h
          | ok s =>
            exact pairwise_dictUpdate udn
              (fun r => { r with state := if info.state = 0 then 1 else 0,
                                 last_seen := some now })
              (fun r => rfl) (fun r => rfl) h
        · rw [if_neg h3]
          exact h

theorem sortedReg_api_brightness (st : Registry) (udn : String) (raw : Option Int)
    (sup : Bool) (out : Except String Unit) (now : Nat) (h : SortedReg st) :
    SortedReg (api_brightness st udn raw sup out now).reg := by
  cases raw with
  | none => simp only [api_brightness]; exact h
  | some v =>
    cases hget : dictGet st udn with
    | none => simp only [api_brightness, hget]; exact h
    | some info =>
      simp only [api_brightness, hget]
      by_cases h1 : info.type = "wemo"
      · rw [if_pos h1]
        cases sup with
        | false => exact h
        | true =>
          cases out with
          | error e => exact h
          | ok u =>
            exact pairwise_dictUpdate udn
              (fun r => { r with brightness := some (clampBrightness v),
                                 last_seen := some now })
              (fun r => rfl) (fun r => rfl) h
      · rw [if_neg h1]
        by_cases h2 : info.type = "lifx"
        · rw [if_pos h2]
          cases out with
          | error e => exact h
          | ok u =>
            exact pairwise_dictUpdate udn
              (fun r => { r with brightness := some (clampBrightness v),
                                 last_seen := some now })
              (fun r => rfl) (fun r => rfl) h
        · rw [if_neg h2]
          by_cases h3 : info.type = "tapo"
          · rw [if_pos h3]
            cases out with
            | error e => exact h
            | ok u =>
              exact pairwise_dictUpdate udn
                (fun r => { r with brightness := some (clampBrightness v),
                                   last_seen := some now })
                (fun r => rfl) (fun r => rfl) h
          · rw [if_neg h3]
            exact h

theorem sortedReg_api_hue (st : Registry) (udn : String) (raw : Option Int)
    (out : Except String Unit) (now : Nat) (h : SortedReg st) :
    SortedReg (api_hue st udn raw out now).reg := by
  cases raw with
  | none => simp only [api_hue]; exact h
  | some v =>
    cases hget : dictGet st udn with
    | none => simp only [api_hue, hget]; exact h
    | some info =>
      simp only [api_hue, hget]
      by_cases h1 : info.type = "tapo"
      · rw [if_pos h1]
        cases out with
        | error e => exact h
        | ok u =>
          exact pairwise_dictUpdate udn
            (fun r => { r with hue := some (clampHue v), last_seen := some now })
            (fun r => rfl) (fun r => rfl) h
      · rw [if_neg h1]
        exact h

theorem sortedReg_api_saturation (st : Registry) (udn : String) (raw : Option Int)
    (out : Except String Unit) (now : Nat) (h : SortedReg st) :
    SortedReg (api_saturation st udn raw out now).reg := by
  cases raw with
  | none => simp only [api_saturation]; exact h
  | some v =>
    cases hget : dictGet st udn with
    | none => simp only [api_saturation, hget]; exact h
    | some info =>
      simp only [api_saturation, hget]
      by_cases h1 : info.type = "tapo"
      · rw [if_pos h1]
        cases out with
        | error e => exact h
        | ok u =>
          exact pairwise_dictUpdate udn
            (fun r => { r with saturation := some (clampSaturation v),
                               last_seen := some now })
            (fun r => rfl) (fun r => rfl) h
      · rw [if_neg h1]
        exact h

theorem sortedReg_applyOp (st : Registry) (op : RegOp) (h : SortedReg st) :
    SortedReg (applyOp st op) := by
  cases op with
  | opWemo scan now => exact sortedReg_discover_wemo st scan now
  | opLifx lights now => exact sortedReg_lifx_merge st lights now
  | opTapo cache epoch now => exact sortedReg_discover_tapo epoch now cache st h
  | opToggle udn out now => exact sortedReg_api_toggle st udn out now h
  | opBrightness udn raw sup out now => exact sortedReg_api_brightness st udn raw sup out now h
  | opHue udn raw out now => exact sortedReg_api_hue st udn raw out now h
  | opSaturation udn raw out now => exact sortedReg_api_saturation st udn raw out now h

theorem sortedReg_applyOps (ops : List RegOp) : SortedReg (applyOps ops) := by
  have main : ∀ (l : List RegOp) (st : Registry), SortedReg st →
      SortedReg (l.foldl applyOp st) := by
    intro l
    induction l with
    | nil => intro st h; exact h
    | cons op rest ih =>
      intro st h
      exact ih (applyOp st op) (sortedReg_applyOp st op h)
  exact main ops [] List.Pairwise.nil

/-! Key-preservation lemmas: no operation removes a key. -/

theorem mem_keys_sort {l : Registry} {k : String} (h : k ∈ keys l) :
    k ∈ keys (sort_devices l) :=
  (keys_sort_perm l).mem_iff.mpr h

theorem mem_keys_sortIf (b : Bool) (st : Registry) (u : String) (r : DeviceInfo) {k : String}
    (h : k ∈ keys st) : k ∈ keys (sort_devices (if b then dictSet st u r else st)) := by
  cases b
  · simpa using mem_keys_sort h
  · simpa using mem_keys_sort ((mem_keys_dictSet_iff st u r k).mpr (Or.inl h))

theorem mem_keys_tapoMergeOne (epoch now : Nat) (st : Registry) (o : TapoObs)
    {k : String} (h : k ∈ keys st) : k ∈ keys (tapoMergeOne epoch now st o) :=
  mem_keys_sortIf _ st _ _ h

theorem mem_keys_discover_tapo (epoch now : Nat) (cache : List TapoObs) :
    ∀ (st : Registry) {k : String}, k ∈ keys st →
      k ∈ keys (discover_tapo epoch now st cache) := by
  induction cache with
  | nil => intro st k h; exact h
  | cons o os ih =>
    intro st k h
    exact ih (tapoMergeOne epoch now st o) (mem_keys_tapoMergeOne epoch now st o h)

theorem mem_keys_wemo_merge (found : List WemoObs) (now : Nat) :
    ∀ (st : Registry) {k : String}, k ∈ keys st → k ∈ keys (wemo_merge st found now) := by
  have fold : ∀ (l : List WemoObs) (st : Registry) (k : String), k ∈ keys st →
      k ∈ keys (l.foldl (fun acc o => dictSet acc o.udn (wemoRecord acc now o)) st) := by
    intro l
    induction l with
    | nil => intro st k h; exact h
    | cons o os ih =>
      intro st k h
      exact ih _ k ((mem_keys_dictSet_iff st o.udn _ k).mpr (Or.inl h))
  intro st k h
  exact mem_keys_sort (fold found st k h)

theorem mem_keys_discover_wemo (scan : Option (List WemoObs)) (now : Nat)
    (st : Registry) {k : String} (h : k ∈ keys st) :
    k ∈ keys (discover_wemo st scan now) :=
  mem_keys_wemo_merge _ now st h

theorem mem_keys_lifx_merge (lights : List LifxObs) (now : Nat) :
    ∀ (st : Registry) {k : String}, k ∈ keys st → k ∈ keys (lifx_merge st lights now) := by
  have fold : ∀ (l : List LifxObs) (st : Registry) (k : String), k ∈ keys st →
      k ∈ keys (l.foldl
        (fun acc o => if o.failed then acc else dictSet acc o.udn (lifxRecord acc now o)) st) := by
    intro l
    induction l with
    | nil => intro st k h; exact h
    | cons o os ih =>
      intro st k h
      cases hf : o.failed with
      | true =>
        simp only [List.foldl_cons, hf, if_true]
        exact ih st k h
      | false =>
        simp only [List.foldl_cons, hf, if_false]
        exact ih _ k ((mem_keys_dictSet_iff st o.udn _ k).mpr (Or.inl h))
  intro st k h
  exact mem_keys_sort (fold lights st k h)

theorem keys_api_toggle (st : Registry) (udn : String) (out : Except String Nat) (now : Nat) :
    keys (api_toggle st udn out now).reg = keys st := by
  cases hget : dictGet st udn with
  | none => simp only [api_toggle, hget]
  | some info =>
    simp only [api_toggle, hget]
    by_cases h1 : info.type = "wemo"
    · rw [if_pos h1]
      cases out with
      | error e => rfl
      | ok s => exact keys_dictUpdate st udn _
    · rw [if_neg h1]
      by_cases h2 : info.type = "lifx"
      · rw [if_pos h2]
        cases out with
        | error e => rfl
        | ok s => exact keys_dictUpdate st udn _
      · rw [if_neg h2]
        by_cases h3 : info.type = "tapo"
        · rw [if_pos h3]
          cases out with
          | error e => rfl
          | ok s => exact keys_dictUpdate st udn _
        · rw [if_neg h3]

theorem keys_api_brightness (st : Registry) (udn : String) (raw : Option Int) (sup : Bool)
    (out : Except String Unit) (now : Nat) :
    keys (api_brightness st udn raw sup out now).reg = keys st := by
  cases raw with
  | none => simp only [api_brightness]
  | some v =>
    cases hget : dictGet st udn with
    | none => simp only [api_brightness, hget]
    | some info =>
      simp only [api_brightness, hget]
      by_cases h1 : info.type = "wemo"
      · rw [if_pos h1]
        cases sup with
        | false => rfl
        | true =>
          cases out with
          | error e => rfl
          | ok u => exact keys_dictUpdate st udn _
      · rw [if_neg h1]
        by_cases h2 : info.type = "lifx"
        · rw [if_pos h2]
          cases out with
          | error e => rfl
          | ok u => exact keys_dictUpdate st udn _
        · rw [if_neg h2]
          by_cases h3 : info.type = "tapo"
          · rw [if_pos h3]
            cases out with
            | error e => rfl
            | ok u => exact keys_dictUpdate st udn _
          · rw [if_neg h3]

theorem keys_api_hue (st : Registry) (udn : String) (raw : Option Int)
    (out : Except String Unit) (now : Nat) :
    keys (api_hue st udn raw out now).reg = keys st := by
  cases raw with
  | none => simp only [api_hue]
  | some v =>
    cases hget : dictGet st udn with
    | none => simp only [api_hue, hget]
    | some info =>
      simp only [api_hue, hget]
      by_cases h1 : info.type = "tapo"
      · rw [if_pos h1]
        cases out with
        | error e => rfl
        | ok u => exact keys_dictUpdate st udn _
      · rw [if_neg h1]

theorem keys_api_saturation (st : Registry) (udn : String) (raw : Option Int)
    (out : Except String Unit) (now : Nat) :
    keys (api_saturation st udn raw out now).reg = keys st := by
  cases raw with
  | none => simp only [api_saturation]
  | some v =>
    cases hget : dictGet st udn with
    | none => simp only [api_saturation, hget]
    | some info =>
      simp only [api_saturation, hget]
      by_cases h1 : info.type = "tapo"
      · rw [if_pos h1]
        cases out with
        | error e => rfl
        | ok u => exact keys_dictUpdate st udn _
      · rw [if_neg h1]

/-! Serialization lemmas. -/

theorem jStr_serializeDevice_type (v : DeviceInfo) :
    jStr (serializeDevice v) "type" = v.type := by
  unfold serializeDevice
  by_cases h : (v.hue.isSome && v.saturation.isSome) = true
  · rw [if_pos h]; simp [jStr, jFind]
  · rw [if_neg h]; simp [jStr, jFind]

theorem jStr_serializeDevice_name (v : DeviceInfo) :
    jStr (serializeDevice v) "name" = v.name := by
  unfold serializeDevice
  by_cases h : (v.hue.isSome && v.saturation.isSome) = true
  · rw [if_pos h]; simp [jStr, jFind]
  · rw [if_neg h]; simp [jStr, jFind]

theorem serLE_serializeDevice (a b : String × DeviceInfo) :
    serLE (serializeDevice a.2) (serializeDevice b.2) = devLE a b := by
  unfold serLE devLE
  rw [jStr_serializeDevice_type, jStr_serializeDevice_type,
      jStr_serializeDevice_name, jStr_serializeDevice_name]

theorem serializeDevice_setHandle (f : Nat → Nat) (v : DeviceInfo) :
    serializeDevice { v with device := f v.device } = serializeDevice v := rfl

/-! Handler evaluation helpers. -/

theorem api_hue_tapo_ok (st : Registry) (udn : String) (info : DeviceInfo) (v : Int)
    (now : Nat) (hget : dictGet st udn = some info) (ht : info.type = "tapo") :
    api_hue st udn (some v) (Except.ok ()) now =
      { resp := ok200,
        reg := dictUpdate st udn
          (fun r => { r with hue := some (clampHue v), last_seen := some now }),
        issued := some (some (clampHue v), info.saturation) } := by
  simp [api_hue, hget, ht]

theorem api_saturation_tapo_ok (st : Registry) (udn : String) (info : DeviceInfo) (v : Int)
    (now : Nat) (hget : dictGet st udn = some info) (ht : info.type = "tapo") :
    api_saturation st udn (some v) (Except.ok ()) now =
      { resp := ok200,
        reg := dictUpdate st udn
          (fun r => { r with saturation := some (clampSaturation v), last_seen := some now }),
        issued := some (info.hue, some (clampSaturation v)) } := by
  simp [api_saturation, hget, ht]

theorem api_brightness_tapo_ok (st : Registry) (udn : String) (info : DeviceInfo) (v : Int)
    (sup : Bool) (now : Nat) (hget : dictGet st udn = some info) (ht : info.type = "tapo") :
    api_brightness st udn (some v) sup (Except.ok ()) now =
      { resp := ok200,
        reg := dictUpdate st udn
          (fun r => { r with brightness := some (clampBrightness v), last_seen := some now }) } := by
  simp [api_brightness, hget, ht]

theorem api_toggle_error (st : Registry) (udn : String) (e : String) (now : Nat) :
    (api_toggle st udn (Except.error e) now).reg = st ∧
    (api_toggle st udn (Except.error e) now).resp.ok = false := by
  cases hget : dictGet st udn with
  | none => simp [api_toggle, hget, err404]
  | some info =>
    simp only [api_toggle, hget]
    by_cases h1 : info.type = "wemo"
    · simp [h1, err500]
    · by_cases h2 : info.type = "lifx"
      · simp [h1, h2, err500]
      · by_cases h3 : info.type = "tapo"
        · simp [h1, h2, h3, err500]
        · simp [h1, h2, h3, err500]

theorem api_toggle_error_typed (st : Registry) (udn : String) (info : DeviceInfo)
    (e : String) (now : Nat) (hget : dictGet st udn = some info) :
    (api_toggle st udn (Except.error e) now).resp.status = 500 ∧
    (api_toggle st udn (Except.error e) now).resp.error.isSome = true := by
  simp only [api_toggle, hget]
  by_cases h1 : info.type = "wemo"
  · simp [h1, err500]
  · by_cases h2 : info.type = "lifx"
    · simp [h1, h2, err500]
    · by_cases h3 : info.type = "tapo"
      · simp [h1, h2, h3, err500]
      · simp [h1, h2, h3, err500]

theorem api_brightness_error (st : Registry) (udn : String) (raw : Option Int) (sup : Bool)
    (e : String) (now : Nat) :
    (api_brightness st udn raw sup (Except.error e) now).reg = st ∧
    (api_brightness st udn raw sup (Except.error e) now).resp.ok = false := by
  cases raw with
  | none => simp [api_brightness, err400]
  | some v =>
    cases hget : dictGet st udn with
    | none => simp [api_brightness, hget, err404]
    | some info =>
      simp only [api_brightness, hget]
      by_cases h1 : info.type = "wemo"
      · cases sup with
        | false => simp [h1, err400]
        | true => simp [h1, err500]
      · by_cases h2 : info.type = "lifx"
        · simp [h1, h2, err500]
        · by_cases h3 : info.type = "tapo"
          · simp [h1, h2, h3, err500]
          · simp [h1, h2, h3, err400]

theorem api_hue_error (st : Registry) (udn : String) (raw : Option Int)
    (e : String) (now : Nat) :
    (api_hue st udn raw (Except.error e) now).reg = st ∧
    (api_hue st udn raw (Except.error e) now).resp.ok = false := by
  cases raw with
  | none => simp [api_hue, err400]
  | some v =>
    cases hget : dictGet st udn with
    | none => simp [api_hue, hget, err404]
    | some info =>
      simp only [api_hue, hget]
      by_cases h1 : info.type = "tapo"
      · simp [h1, err500]
      · simp [h1, err400]

theorem api_saturation_error (st : Registry) (udn : String) (raw : Option Int)
    (e : String) (now : Nat) :
    (api_saturation st udn raw (Except.error e) now).reg = st ∧
    (api_saturation st udn raw (Except.error e) now).resp.ok = false := by
  cases raw with
  | none => simp [api_saturation, err400]
  | some v =>
    cases hget : dictGet st udn with
    | none => simp [api_saturation, hget, err404]
    | some info =>
      simp only [api_saturation, hget]
      by_cases h1 : info.type = "tapo"
      · simp [h1, err500]
      · simp [h1, err400]

/-- A concrete tapo record and singleton registry for instantiations. -/
def sampleTapo : DeviceInfo :=
  { uuid := "tapo-aa", device := 7, name := "bulb", model := "L530", type := "tapo",
    state := 0, brightness := some 50, hue := some 10, saturation := some 20,
    ip := some "192.168.1.9", last_seen := some 100 }

/-- Singleton registry holding `sampleTapo`. -/
def sampleReg : Registry := [("tapo-aa", sampleTapo)]

/--
C3: for every successful set-hue (set-saturation) command on a tapo
device — the backend that sets hue and saturation together — the
dispatcher reads the sibling field from the registry record, issues the
combined `set_hue_saturation` pair built from the clamped command value
and that sibling value, and the stored record afterwards carries exactly
both fields of the issued pair: the commanded field updated and the
sibling at the value that was read and sent.
-/
theorem claim_c3_hue_saturation_coupled (st : Registry) (udn : String) (info : DeviceInfo)
    (v w : Int) (now : Nat) (hget : dictGet st udn = some info) (ht : info.type = "tapo") :
    ((api_hue st udn (some v) (Except.ok ()) now).issued
        = some (some (clampHue v), info.saturation) ∧
      dictGet (api_hue st udn (some v) (Except.ok ()) now).reg udn
        = some { info with hue := some (clampHue v), last_seen := some now }) ∧
    ((api_saturation st udn (some w) (Except.ok ()) now).issued
        = some (info.hue, some (clampSaturation w)) ∧
      dictGet (api_saturation st udn (some w) (Except.ok ()) now).reg udn
        = some { info with saturation := some (clampSaturation w), last_seen := some now }) := by
  constructor
  · rw [api_hue_tapo_ok st udn info v now hget ht]
    refine ⟨rfl, ?_⟩
    show dictGet (dictUpdate st udn _) udn = _
    rw [dictGet_dictUpdate_self, hget]
    rfl
  · rw [api_saturation_tapo_ok st udn info w now hget ht]
    refine ⟨rfl, ?_⟩
    show dictGet (dictUpdate st udn _) udn = _
    rw [dictGet_dictUpdate_self, hget]
    rfl

/-- Witness for C3 at a concrete registry and values. -/
theorem claim_c3_hue_saturation_coupled_witness :
    ((api_hue sampleReg "tapo-aa" (some 400) (Except.ok ()) 200).issued
        = some (some (clampHue 400), sampleTapo.saturation) ∧
      dictGet (api_hue sampleReg "tapo-aa" (some 400) (Except.ok ()) 200).reg "tapo-aa"
        = some { sampleTapo with hue := some (clampHue 400), last_seen := some 200 }) ∧
    ((api_saturation sampleReg "tapo-aa" (some 55) (Except.ok ()) 200).issued
        = some (sampleTapo.hue, some (clampSaturation 55)) ∧
      dictGet (api_saturation sampleReg "tapo-aa" (some 55) (Except.ok ()) 200).reg "tapo-aa"
        = some { sampleTapo with saturation := some (clampSaturation 55), last_seen := some 200 }) :=
  claim_c3_hue_saturation_coupled sampleReg "tapo-aa" sampleTapo 400 55 200
    (by decide) (by decide)

/--
C5: for every command (toggle, set-brightness, set-hue, set-saturation),
if the backend adapter call raises, the handler answers a non-ok JSON
error and the registry is exactly what it was before the command; when
the device exists, the toggle error is a typed 500 response carrying an
error message.
-/
theorem claim_c5_failure_atomic :
    (∀ (st : Registry) (udn e : String) (now : Nat),
      (api_toggle st udn (Except.error e) now).reg = st ∧
      (api_toggle st udn (Except.error e) now).resp.ok = false) ∧
    (∀ (st : Registry) (udn : String) (raw : Option Int) (sup : Bool) (e : String) (now : Nat),
      (api_brightness st udn raw sup (Except.error e) now).reg = st ∧
      (api_brightness st udn raw sup (Except.error e) now).resp.ok = false) ∧
    (∀ (st : Registry) (udn : String) (raw : Option Int) (e : String) (now : Nat),
      (api_hue st udn raw (Except.error e) now).reg = st ∧
      (api_hue st udn raw (Except.error e) now).resp.ok = false) ∧
    (∀ (st : Registry) (udn : String) (raw : Option Int) (e : String) (now : Nat),
      (api_saturation st udn raw (Except.error e) now).reg = st ∧
      (api_saturation st udn raw (Except.error e) now).resp.ok = false) ∧
    (∀ (st : Registry) (udn : String) (info : DeviceInfo) (e : String) (now : Nat),
      dictGet st udn = some info →
      (api_toggle st udn (Except.error e) now).resp.status = 500 ∧
      (api_toggle st udn (Except.error e) now).resp.error.isSome = true) :=
  ⟨api_toggle_error, api_brightness_error, api_hue_error, api_saturation_error,
   fun st udn info e now hget => api_toggle_error_typed st udn info e now hget⟩

/-- Witness for C5 at a concrete registry. -/
theorem claim_c5_failure_atomic_witness :
    (api_toggle sampleReg "tapo-aa" (Except.error "boom") 300).reg = sampleReg ∧
    (api_toggle sampleReg "tapo-aa" (Except.error "boom") 300).resp.status = 500 :=
  ⟨(claim_c5_failure_atomic.1 sampleReg "tapo-aa" "boom" 300).1,
   (claim_c5_failure_atomic.2.2.2.2 sampleReg "tapo-aa" sampleTapo "boom" 300 (by decide)).1⟩

/--
C6: clamping is total.  Every submitted brightness is clamped into
`[0, 100]` and every hue into `[0, 360]` before being applied;
`clampBrightness 150 = 100`, `clampBrightness (-5) = 0`,
`clampHue 400 = 360`; and on a successful command the registry stores
exactly the clamped value.
-/
theorem claim_c6_clamping_total :
    (∀ v : Int, 0 ≤ clampBrightness v ∧ clampBrightness v ≤ 100) ∧
    (∀ v : Int, 0 ≤ clampHue v ∧ clampHue v ≤ 360) ∧
    clampBrightness 150 = 100 ∧ clampBrightness (-5) = 0 ∧ clampHue 400 = 360 ∧
    (∀ (st : Registry) (udn : String) (info : DeviceInfo) (v : Int) (sup : Bool) (now : Nat),
      dictGet st udn = some info → info.type = "tapo" →
      dictGet (api_brightness st udn (some v) sup (Except.ok ()) now).reg udn
        = some { info with brightness := some (clampBrightness v), last_seen := some now }) ∧
    (∀ (st : Registry) (udn : String) (info : DeviceInfo) (v : Int) (now : Nat),
      dictGet st udn = some info → info.type = "tapo" →
      dictGet (api_hue st udn (some v) (Except.ok ()) now).reg udn
        = some { info with hue := some (clampHue v), last_seen := some now }) := by
  refine ⟨?_, ?_, by decide, by decide, by decide, ?_, ?_⟩
  · intro v
    unfold clampBrightness
    exact ⟨le_max_left 0 _, max_le (by norm_num) (min_le_left 100 v)⟩
  · intro v
    unfold clampHue
    exact ⟨le_max_left 0 _, max_le (by norm_num) (min_le_left 360 v)⟩
  · intro st udn info v sup now hget ht
    rw [api_brightness_tapo_ok st udn info v sup now hget ht]
    show dictGet (dictUpdate st udn _) udn = _
    rw [dictGet_dictUpdate_self, hget]
    rfl
  · intro st udn info v now hget ht
    rw [api_hue_tapo_ok st udn info v now hget ht]
    show dictGet (dictUpdate st udn _) udn = _
    rw [dictGet_dictUpdate_self, hget]
    rfl

/-- Witness for C6 at a concrete registry and values. -/
theorem claim_c6_clamping_total_witness :
    clampBrightness 150 = 100 ∧
    dictGet (api_brightness sampleReg "tapo-aa" (some 150) true (Except.ok ()) 200).reg "tapo-aa"
      = some { sampleTapo with brightness := some (clampBrightness 150), last_seen := some 200 } ∧
    dictGet (api_hue sampleReg "tapo-aa" (some 400) (Except.ok ()) 200).reg "tapo-aa"
      = some { sampleTapo with hue := some (clampHue 400), last_seen := some 200 } :=
  ⟨claim_c6_clamping_total.2.2.1,
   claim_c6_clamping_total.2.2.2.2.2.1 sampleReg "tapo-aa" sampleTapo 150 true 200
     (by decide) (by decide),
   claim_c6_clamping_total.2.2.2.2.2.2 sampleReg "tapo-aa" sampleTapo 400 200
     (by decide) (by decide)⟩

theorem dictGet_dictSet_self (st : Registry) (q : String) (r : DeviceInfo) :
    dictGet (dictSet st q r) q = some r := by
  induction st with
  | nil => simp [dictSet, dictGet]
  | cons p rest ih =>
    obtain ⟨k, v⟩ := p
    by_cases h : k = q
    · simp [dictSet, dictGet, h]
    · simp [dictSet, dictGet, h, ih]

/-- A concrete wemo record whose last accepted write was at tick 150. -/
def sampleWemo : DeviceInfo :=
  { uuid := "wemo-1", device := 3, name := "plug", model := "Socket", type := "wemo",
    state := 1, brightness := none, hue := none, saturation := none,
    ip := some "192.168.1.5", last_seen := some 150 }

/-- Singleton registry holding `sampleWemo`. -/
def sampleWemoReg : Registry := [("wemo-1", sampleWemo)]

/-- A wemo observation proposing a different state for `sampleWemo`. -/
def sampleWemoObs : WemoObs :=
  { udn := "wemo-1", handle := 4, name := "plug", model := "Socket",
    ip := some "192.168.1.5", stateRead := some 0, brightnessRead := some none }

/-- A tapo observation proposing a different state for `sampleTapo`. -/
def sampleTapoObs : TapoObs :=
  { mac := "aa", handle := 8, nickname := "bulb", model := "L530",
    ip := some "192.168.1.9", device_on := true, brightness := some 60,
    hue := some 10, saturation := some 20 }

/-- A lifx observation, as it would sit in `LIFX_CACHE`. -/
def sampleLifxObs : LifxObs :=
  { udn := "lifx-bb", handle := 5, label := "strip", ip := some "192.168.1.6",
    powerRead := some 65535, colorRead := some 80, failed := false }

/--
C1 is false on the code.  First: the tapo guard compares with strict
`>` against the stored `last_seen`, so a merge whose round epoch equals
the epoch of the last accepted write (a tie, here both 100) is rejected
and leaves the record unchanged, although the claim says ties are
accepted and applied (the proposed record differs from the stored one).
Second: the wemo discovery path has no guard at all — a wemo merge
performed by a round older than the stored record (round tick 90,
stored `last_seen` 150) still overwrites the stored record, although the
claim says a strictly smaller epoch never changes stored state.
-/
theorem claim_c1_counterexample :
    (discover_tapo 100 120 sampleReg [sampleTapoObs] = sampleReg ∧
      tapoRecord 120 sampleTapoObs ≠ sampleTapo) ∧
    (dictGet (wemo_merge sampleWemoReg [sampleWemoObs] 90) "wemo-1"
        = some (wemoRecord sampleWemoReg 90 sampleWemoObs) ∧
      wemoRecord sampleWemoReg 90 sampleWemoObs ≠ sampleWemo) := by
  refine ⟨⟨?_, ?_⟩, ⟨?_, ?_⟩⟩ <;> decide

/--
C1 amended: the monotonic-epoch law holds only on the tapo discovery
path, in the form the code implements: an existing record with a
`last_seen` at or after the round epoch is left unchanged (ties are
rejected, not re-applied), an older or absent `last_seen` lets the
proposed record replace the stored one wholesale; the wemo and lifx
discovery paths overwrite unconditionally, whatever the round timing.
-/
theorem claim_c1_amended_epoch_guard :
    (∀ (epoch now : Nat) (st : Registry) (o : TapoObs) (rec : DeviceInfo) (ls : Nat),
      NodupKeys st → dictGet st ("tapo-" ++ o.mac) = some rec →
      rec.last_seen = some ls → epoch ≤ ls →
      dictGet (tapoMergeOne epoch now st o) ("tapo-" ++ o.mac) = some rec) ∧
    (∀ (epoch now : Nat) (st : Registry) (o : TapoObs) (rec : DeviceInfo) (ls : Nat),
      NodupKeys st → dictGet st ("tapo-" ++ o.mac) = some rec →
      rec.last_seen = some ls → ls < epoch →
      dictGet (tapoMergeOne epoch now st o) ("tapo-" ++ o.mac) = some (tapoRecord now o)) ∧
    (∀ (now : Nat) (st : Registry) (o : WemoObs),
      NodupKeys st →
      dictGet (wemo_merge st [o] now) o.udn = some (wemoRecord st now o)) ∧
    (∀ (now : Nat) (st : Registry) (o : LifxObs),
      NodupKeys st → o.failed = false →
      dictGet (lifx_merge st [o] now) o.udn = some (lifxRecord st now o)) := by
  refine ⟨?_, ?_, ?_, ?_⟩
  · intro epoch now st o rec ls hnd hget hls hle
    have hdec : decide (ls < epoch) = false := by
      simp [Nat.not_lt.mpr hle]
    simp only [tapoMergeOne, hget, hls, hdec, Bool.false_eq_true, if_false]
    rw [dictGet_sort_devices hnd, hget]
  · intro epoch now st o rec ls hnd hget hls hlt
    have hdec : decide (ls < epoch) = true := by simp [hlt]
    simp only [tapoMergeOne, hget, hls, hdec, if_true]
    rw [dictGet_sort_devices (nodupKeys_dictSet st _ _ hnd), dictGet_dictSet_self]
  · intro now st o hnd
    simp only [wemo_merge, List.foldl_cons, List.foldl_nil]
    rw [dictGet_sort_devices (nodupKeys_dictSet st _ _ hnd), dictGet_dictSet_self]
  · intro now st o hnd hf
    simp only [lifx_merge, List.foldl_cons, List.foldl_nil, hf, Bool.false_eq_true, if_false]
    rw [dictGet_sort_devices (nodupKeys_dictSet st _ _ hnd), dictGet_dictSet_self]

/-- Witness for the amended C1 at concrete registries. -/
theorem claim_c1_amended_epoch_guard_witness :
    dictGet (tapoMergeOne 100 120 sampleReg sampleTapoObs) ("tapo-" ++ sampleTapoObs.mac)
      = some sampleTapo ∧
    dictGet (tapoMergeOne 200 220 sampleReg sampleTapoObs) ("tapo-" ++ sampleTapoObs.mac)
      = some (tapoRecord 220 sampleTapoObs) ∧
    dictGet (wemo_merge sampleWemoReg [sampleWemoObs] 90) sampleWemoObs.udn
      = some (wemoRecord sampleWemoReg 90 sampleWemoObs) :=
  ⟨claim_c1_amended_epoch_guard.1 100 120 sampleReg sampleTapoObs sampleTapo 100
      (by unfold NodupKeys; decide) (by decide) (by decide) (by decide),
   claim_c1_amended_epoch_guard.2.1 200 220 sampleReg sampleTapoObs sampleTapo 100
      (by unfold NodupKeys; decide) (by decide) (by decide) (by decide),
   claim_c1_amended_epoch_guard.2.2.1 90 sampleWemoReg sampleWemoObs
      (by unfold NodupKeys; decide)⟩

/--
C2 is false on the code: `discover_wemo` holds `DEVICES_LOCK` while it
reads device state and brightness over the network (one found device
suffices), and the lifx branch of `api_toggle` sleeps half a second and
re-reads the device power twice inside the critical section.
-/
theorem claim_c2_counterexample :
    lockSafe (discover_wemo_trace 1) = false ∧
    lockSafe api_toggle_lifx_trace = false := by
  decide

/--
C2 amended: the tapo discovery merge and the brightness, hue,
saturation and tapo-toggle handlers keep all backend I/O and sleeps
outside the critical section, but `discover_wemo` and `discover_lifx`
perform their per-device reads while holding the lock (whenever at
least one device was found), and the wemo and lifx branches of
`api_toggle` perform device reads — for lifx also a sleep — inside the
critical section.
-/
theorem claim_c2_amended_lock_discipline :
    (∀ n : Nat, lockSafe (discover_tapo_trace n) = true) ∧
    lockSafe api_toggle_tapo_trace = true ∧
    lockSafe api_brightness_trace = true ∧
    lockSafe api_hue_trace = true ∧
    lockSafe api_saturation_trace = true ∧
    (∀ n : Nat, lockSafe (discover_wemo_trace (n + 1)) = false) ∧
    (∀ n : Nat, lockSafe (discover_lifx_trace (n + 1)) = false) ∧
    lockSafe api_toggle_wemo_trace = false ∧
    lockSafe api_toggle_lifx_trace = false := by
  have hloop : ∀ m : Nat, noSuspendInLock (tapoLoopTrace m) false = true := by
    intro m
    induction m with
    | zero => rfl
    | succ m ihm =>
      simp only [tapoLoopTrace, noSuspendInLock]
      exact ihm
  refine ⟨?_, by decide, by decide, by decide, by decide, ?_, ?_, by decide, by decide⟩
  · intro n
    simp only [lockSafe, discover_tapo_trace, noSuspendInLock, Bool.false_eq_true, if_false]
    exact hloop n
  · intro n
    simp [lockSafe, discover_wemo_trace, wemoReadTrace, noSuspendInLock]
  · intro n
    simp [lockSafe, discover_lifx_trace, lifxReadTrace, noSuspendInLock]

/--
C4 is false on the code: when the lifx scan fails entirely
(`LIFX_LAN.get_lights()` raises), `discover_lifx` does not contribute an
empty sequence — it falls back to the cached `LIFX_CACHE` list and merges
those cached lights, so a round started on an empty registry ends with a
record merged from the cache.
-/
theorem claim_c4_counterexample :
    (discover_lifx [] none [sampleLifxObs] 100).1 ≠ [] ∧
    dictGet (discover_lifx [] none [sampleLifxObs] 100).1 "lifx-bb"
      = some (lifxRecord [] 100 sampleLifxObs) := by
  refine ⟨?_, ?_⟩ <;> decide

/--
C4 amended: on total discovery failure the wemo path contributes an
empty sequence (the registry keeps exactly the records it had, merely
re-sorted), while the lifx path falls back to the cached `LIFX_CACHE`
list — the failed round merges the cached lights and keeps the cache;
in both cases the failure is confined to that backend and aborts
nothing else.
-/
theorem claim_c4_amended_failure_fallback :
    (∀ (st : Registry) (now : Nat) (k : String), NodupKeys st →
      dictGet (discover_wemo st none now) k = dictGet st k) ∧
    (∀ (st : Registry) (cache : List LifxObs) (now : Nat),
      discover_lifx st none cache now = (lifx_merge st cache now, cache)) := by
  constructor
  · intro st now k hnd
    simp only [discover_wemo, wemo_merge, List.foldl_nil]
    exact dictGet_sort_devices hnd k
  · intro st cache now
    rfl

/-- Witness for the amended C4 at a concrete registry. -/
theorem claim_c4_amended_failure_fallback_witness :
    dictGet (discover_wemo sampleWemoReg none 300) "wemo-1" = dictGet sampleWemoReg "wemo-1" ∧
    discover_lifx sampleWemoReg none [sampleLifxObs] 300
      = (lifx_merge sampleWemoReg [sampleLifxObs] 300, [sampleLifxObs]) :=
  ⟨claim_c4_amended_failure_fallback.1 sampleWemoReg 300 "wemo-1" (by unfold NodupKeys; decide),
   claim_c4_amended_failure_fallback.2 sampleWemoReg [sampleLifxObs] 300⟩

/--
C7: every snapshot read over a reachable registry (any sequence of
discovery merges and commands applied to the initially empty dict)
returns the serialized records ordered by the backend-kind rank
(lifx, wemo, tapo, unknown last) and then by the lowercased name — the
comparison reading only the serialized `type` and `name` entries — and
the snapshot is a field-by-field copy that carries no reference to the
live handles: replacing every stored owner handle leaves the snapshot
identical.
-/
theorem claim_c7_snapshot_ordered_copy (ops : List RegOp) (f : Nat → Nat) :
    (api_devices (applyOps ops)).Pairwise (fun a b => serLE a b = true) ∧
    api_devices (setHandles f (applyOps ops)) = api_devices (applyOps ops) := by
  constructor
  · have h := sortedReg_applyOps ops
    unfold SortedReg at h
    unfold api_devices
    exact List.Pairwise.map _
      (fun a b hr => by rw [serLE_serializeDevice]; exact hr) h
  · unfold api_devices setHandles
    rw [List.map_map]
    apply List.map_congr_left
    intro p _
    exact serializeDevice_setHandle f p.2

/--
C8: the serialized output of a snapshot read never contains the
internal owner handle: no entry of `api_devices` has a `device` key,
for any registry whatsoever.
-/
theorem claim_c8_no_owner_handle (st : Registry) (e : List (String × JVal))
    (he : e ∈ api_devices st) : "device" ∉ e.map Prod.fst := by
  unfold api_devices at he
  rcases List.mem_map.mp he with ⟨p, _, rfl⟩
  unfold serializeDevice
  by_cases h : (p.2.hue.isSome && p.2.saturation.isSome) = true
  · rw [if_pos h]
    simp
  · rw [if_neg h]
    simp

/-- Witness for C8 at a concrete registry. -/
theorem claim_c8_no_owner_handle_witness :
    "device" ∉ (serializeDevice sampleTapo).map Prod.fst :=
  claim_c8_no_owner_handle sampleReg (serializeDevice sampleTapo) (by decide)

/--
C9: no registry operation removes a record: every key present before
any discovery merge, command, or the in-place re-sort is still present
afterwards (the snapshot read does not modify the registry at all in
this embedding, being a pure function of it).
-/
theorem claim_c9_no_deletion (op : RegOp) (st : Registry) (k : String)
    (h : k ∈ keys st) :
    k ∈ keys (applyOp st op) ∧ k ∈ keys (sort_devices st) := by
  refine ⟨?_, mem_keys_sort h⟩
  cases op with
  | opWemo scan now => exact mem_keys_discover_wemo scan now st h
  | opLifx lights now => exact mem_keys_lifx_merge lights now st h
  | opTapo cache epoch now => exact mem_keys_discover_tapo epoch now cache st h
  | opToggle udn out now =>
    show k ∈ keys (api_toggle st udn out now).reg
    rw [keys_api_toggle]
    exact h
  | opBrightness udn raw sup out now =>
    show k ∈ keys (api_brightness st udn raw sup out now).reg
    rw [keys_api_brightness]
    exact h
  | opHue udn raw out now =>
    show k ∈ keys (api_hue st udn raw out now).reg
    rw [keys_api_hue]
    exact h
  | opSaturation udn raw out now =>
    show k ∈ keys (api_saturation st udn raw out now).reg
    rw [keys_api_saturation]
    exact h

/-- Witness for C9 at a concrete registry and operation. -/
theorem claim_c9_no_deletion_witness :
    "tapo-aa" ∈ keys (applyOp sampleReg (RegOp.opToggle "tapo-aa" (Except.ok 1) 300)) ∧
    "tapo-aa" ∈ keys (sort_devices sampleReg) :=
  claim_c9_no_deletion (RegOp.opToggle "tapo-aa" (Except.ok 1) 300) sampleReg "tapo-aa"
    (by decide)

/--
C10: a serialized snapshot entry carries the `hue` and `saturation`
keys exactly when both stored values are non-null; in particular a
record with a hue but no saturation is serialized with neither key.
-/
theorem claim_c10_hue_saturation_serialization :
    (∀ info : DeviceInfo,
      (("hue" ∈ (serializeDevice info).map Prod.fst) ↔
        (info.hue.isSome = true ∧ info.saturation.isSome = true)) ∧
      (("saturation" ∈ (serializeDevice info).map Prod.fst) ↔
        (info.hue.isSome = true ∧ info.saturation.isSome = true))) ∧
    "hue" ∉ (serializeDevice { sampleTapo with saturation := none }).map Prod.fst ∧
    "saturation" ∉ (serializeDevice { sampleTapo with saturation := none }).map Prod.fst := by
  refine ⟨?_, by decide, by decide⟩
  intro info
  unfold serializeDevice
  by_cases h : (info.hue.isSome && info.saturation.isSome) = true
  · rw [if_pos h]
    rw [Bool.and_eq_true] at h
    simp [h.1, h.2]
  · rw [if_neg h]
    rw [Bool.and_eq_true] at h
    simp [h]
